import Mathlib

/-!
Shallow embedding of the token-lifecycle and request-dispatch core of the
AioSpotify repository (src/aiospotify/http.py and src/aiospotify/errors.py).

Conventions of the embedding:
* Parsed JSON response bodies (Python `Dict[str, Any]`) are association
  lists `Body = List (String × Json)`.
* Timestamps (`datetime.datetime`) are integers counting whole seconds;
  `datetime.timedelta.seconds` of a difference `d` is `d % 86400`
  (Python timedelta normalises so that the seconds component is always in
  `[0, 86400)`, also for negative differences).
* The client object (`HTTPClient`) is the record `ClientState`; Python
  attributes that may be unset (`_session`, `_access_token`, `_expires_at`)
  are `Bool`/`Option` fields, and reading an unset one yields the outcome
  `PyError.attributeError`.
* `asyncio.Lock` is the `lockHeld` flag.  The lock is not reentrant: a task
  that awaits `lock.acquire()` while it already holds the lock suspends
  forever; this single-task execution is the outcome `ReqOutcome.deadlock`.
* Network effects are modelled by an environment holding the scripts of
  auth-endpoint and data-endpoint responses, consumed in order, and by an
  event trace recording session creation, the auth POST, the data call on
  the wire (with its Bearer header), and session closing.
-/

namespace AioSpotify

/-- JSON-like values appearing inside a parsed response body. -/
inductive Json where
  | jstr (s : String)
  | jnum (n : Int)
  | jobj (fields : List (String × Json))

/-- Python `repr` of a JSON value (used by `str()` on dicts). -/
def pyRepr : Json → String
  | .jstr s => "\x27" ++ s ++ "\x27"
  | .jnum n => toString n
  | .jobj fields => "\x7b" ++ pyReprFields fields ++ "\x7d"
where
  /-- `repr` of the comma-separated field list of a dict. -/
  pyReprFields : List (String × Json) → String
  | [] => ""
  | [(k, v)] => "\x27" ++ k ++ "\x27: " ++ pyRepr v
  | (k, v) :: rest => "\x27" ++ k ++ "\x27: " ++ pyRepr v ++ ", " ++ pyReprFields rest

/-- Python `str()` of a JSON value as interpolated by an f-string:
a string renders as itself, everything else as its `repr`. -/
def pyStr : Json → String
  | .jstr s => s
  | v => pyRepr v

/-- A parsed JSON response body: Python `Dict[str, Any]`. -/
abbrev Body := List (String × Json)

/-- Python runtime errors that the source can raise unintentionally. -/
inductive PyError where
  | keyError (k : String)
  | typeError
  | attributeError (name : String)

/-- The exception taxonomy of src/aiospotify/errors.py, as raised by the
raise sites in http.py.  `NotAuthorized.__init__` takes only a message
string; every `HTTPException` subclass is constructed with the parsed
response body and the status code (the optional extra message is never
passed at any raise site in http.py). -/
inductive SpotifyError where
  | notAuthorized (message : String)
  | httpException (data : Body) (status : Nat)
  | invalidClientCredentials (data : Body) (status : Nat)
  | forbidden (data : Body) (status : Nat)
  | notFound (data : Body) (status : Nat)
  | serverError (data : Body) (status : Nat)

/-- The arguments taken by `HTTPException.__init__` (errors.py lines
45-47); they are only formatted into the exception message, never stored
as attributes. -/
structure HTTPExceptionData where
  data : Body
  status_code : Nat
  message : Option String

/-- The message-formatting logic of `HTTPException.__init__`
(errors.py lines 48-57), including its Python pitfalls:
`desc := data.get("error_description") is not None` binds `desc` to the
BOOLEAN of the comparison (the walrus has lowest precedence), so the
then-branch appends the string `": True"`; the else-branch evaluates
`data["error"]["message"]`, a `TypeError` when the error field is a string
and a `KeyError` when it is a dict without a message key. -/
def httpExceptionFmt (data : Body) (status_code : Nat) (message : Option String) :
    Except PyError String :=
  match data.lookup "error" with
  | none => .error (.keyError "error")
  | some err =>
    let fmt := s!"{status_code} " ++ pyStr err
    let desc : Bool := (data.lookup "error_description").isSome
    let step : Except PyError String :=
      if desc then
        .ok (fmt ++ ": True")
      else
        match err with
        | .jobj fields =>
          match fields.lookup "message" with
          | none => .error (.keyError "message")
          | some m => .ok (fmt ++ ": " ++ pyStr m)
        | _ => Except.error .typeError
    match step with
    | .error e => .error e
    | .ok fmt2 =>
      match message with
      | none => .ok fmt2
      | some m => .ok (fmt2 ++ " (" ++ m ++ ")")

/-- The state of an `HTTPClient` (http.py lines 88-95 plus the lazily
created attributes `_session`, `_access_token`, `_expires_at`). -/
structure ClientState where
  client_id : String
  client_secret : String
  /-- whether the `_session` attribute exists -/
  sessionExists : Bool
  /-- whether the aiohttp session has been closed -/
  sessionClosed : Bool
  /-- the `_access_token` attribute, absent until first successful auth -/
  accessToken : Option Json
  /-- the `_expires_at` attribute, in seconds -/
  expiresAt : Option Int
  /-- whether `self.lock` is currently held -/
  lockHeld : Bool

/-- `HTTPClient.__init__` (http.py lines 88-95): credentials stored, no
session, no token, lock created unlocked. -/
def HTTPClient.init (client_id client_secret : String) : ClientState :=
  { client_id := client_id
    client_secret := client_secret
    sessionExists := false
    sessionClosed := false
    accessToken := none
    expiresAt := none
    lockHeld := false }

/-- A `Route` (http.py lines 64-73). -/
structure Route where
  method : String
  path : String
  params : Option (List (String × Json))

/-- `Route.BASE` (http.py line 67). -/
def Route.BASE : String := "https://api.spotify.com/v1/"

/-- `self.url = self.BASE + self.path` (http.py line 72). -/
def Route.url (r : Route) : String := Route.BASE ++ r.path

/-- `Route.__init__` (http.py lines 69-73): a falsy `params` argument
(absent or the empty dict) is stored as `None`. -/
def Route.make (method path : String) (params : Option (List (String × Json))) : Route :=
  { method := method
    path := path
    params := match params with
      | some [] => none
      | none => none
      | some ps => some ps }

/-- Observable effects, in the order they are performed. -/
inductive Event where
  | createSession
  | authPost
  | dataCall (method : String) (url : String) (bearer : String)
  | closeSession

/-- A response of the accounts (auth) endpoint. -/
structure AuthResponse where
  status : Nat
  body : Body

/-- Outcome of one `authorize()` call. -/
inductive AuthOutcome where
  | ok
  | raised (e : SpotifyError)
  | pyError (e : PyError)

/-- Result of one `authorize()` call. -/
structure AuthResult where
  state : ClientState
  outcome : AuthOutcome
  events : List Event

/-- `HTTPClient.authorize` (http.py lines 158-212), given the current
time and the auth endpoint response.  Lines 163-164 lazily create the
session before the POST; on 200 the token fields are stored in source
order (`_access_token` first, so a missing `expires_in` key leaves a
half-updated state); statuses 201/202/204/304/401/404 are logged and
swallowed; 400 raises `InvalidClientCredentials`; 403 raises
`HTTPException`; 500/502/503 raise `ServerError`; any other status falls
through every branch and returns normally.  Each `raise E(data, status)`
first constructs the exception, which formats its message
(errors.py lines 45-57); when that formatting itself fails, the
resulting `TypeError`/`KeyError` propagates instead of the typed
exception. -/
def authorize (st : ClientState) (now : Int) (resp : AuthResponse) : AuthResult :=
  let st0 := if st.sessionExists then st
    else { st with sessionExists := true, sessionClosed := false }
  let evs := (if st.sessionExists then [] else [Event.createSession]) ++ [Event.authPost]
  if resp.status = 200 then
    match resp.body.lookup "access_token" with
    | none => { state := st0, outcome := .pyError (.keyError "access_token"), events := evs }
    | some tok =>
      let st1 := { st0 with accessToken := some tok }
      match resp.body.lookup "expires_in" with
      | none => { state := st1, outcome := .pyError (.keyError "expires_in"), events := evs }
      | some (.jnum e) =>
        { state := { st1 with expiresAt := some (now + e) }, outcome := .ok, events := evs }
      | some _ => { state := st1, outcome := .pyError .typeError, events := evs }
  else if resp.status ∈ ([201, 202, 204, 304, 401, 404] : List Nat) then
    { state := st0, outcome := .ok, events := evs }
  else if resp.status = 400 then
    match httpExceptionFmt resp.body resp.status none with
    | .error pe => { state := st0, outcome := .pyError pe, events := evs }
    | .ok _ =>
      { state := st0, outcome := .raised (.invalidClientCredentials resp.body resp.status), events := evs }
  else if resp.status = 403 then
    match httpExceptionFmt resp.body resp.status none with
    | .error pe => { state := st0, outcome := .pyError pe, events := evs }
    | .ok _ =>
      { state := st0, outcome := .raised (.httpException resp.body resp.status), events := evs }
  else if resp.status ∈ ([500, 502, 503] : List Nat) then
    match httpExceptionFmt resp.body resp.status none with
    | .error pe => { state := st0, outcome := .pyError pe, events := evs }
    | .ok _ =>
      { state := st0, outcome := .raised (.serverError resp.body resp.status), events := evs }
  else
    { state := st0, outcome := .ok, events := evs }

/-- Outcome of one `destroy()` call. -/
inductive DestroyOutcome where
  | ok
  | pyError (e : PyError)

/-- Result of one `destroy()` call. -/
structure DestroyResult where
  state : ClientState
  outcome : DestroyOutcome
  events : List Event

/-- `HTTPClient.destroy` (http.py lines 214-219): reads `self._session`
with no `hasattr` guard, so it raises `AttributeError` when no session was
ever created; a session object is always truthy, so otherwise the session
is closed iff it is not already closed. -/
def destroy (st : ClientState) : DestroyResult :=
  if st.sessionExists = false then
    { state := st, outcome := .pyError (.attributeError "_session"), events := [] }
  else if st.sessionClosed = false then
    { state := { st with sessionClosed := true }, outcome := .ok, events := [Event.closeSession] }
  else
    { state := st, outcome := .ok, events := [] }

/-- A response of the data (api) endpoint: status code and parsed body. -/
structure DataResponse where
  status : Nat
  body : Body

/-- The environment of a `request()` call: the current time (fixed for the
duration of the call, at one-second granularity) and the scripts of
responses the two endpoints will produce, consumed in order. -/
structure Env where
  now : Int
  authResponses : List AuthResponse
  dataResponses : List DataResponse

/-- `timedelta.seconds` of a difference of `d` whole seconds: Python
normalises a timedelta so its seconds component lies in `[0, 86400)`,
i.e. it is `d` modulo 86400 (also for negative `d`). -/
def tdSeconds (d : Int) : Int := d % 86400

/-- The staleness test of http.py lines 112-114, exactly as written:
`(datetime.datetime.utcnow() - self._expires_at).seconds <= 10`. -/
def staleCheck (now expiresAt : Int) : Bool := tdSeconds (now - expiresAt) ≤ 10

/-- Outcome of one `request()` call. -/
inductive ReqOutcome where
  /-- returned the parsed body -/
  | ok (data : Body)
  | raised (e : SpotifyError)
  | pyError (e : PyError)
  /-- the task suspended forever awaiting `self.lock` -/
  | deadlock
  /-- model artifact: the response script ran out -/
  | noResponse
  /-- model artifact: recursion fuel ran out -/
  | outOfFuel

/-- Result of one `request()` call. -/
structure ReqResult where
  outcome : ReqOutcome
  state : ClientState
  env : Env
  events : List Event

/-- What the status-dispatch of `request()` decides to do. -/
inductive StatusAction where
  | success
  | reauthRetry
  | fail (e : SpotifyError)

/-- The status-test chain of http.py lines 136-156, in source order:
2xx succeeds; 401 re-authorizes and retries; 403 → `Forbidden`;
404 → `NotFound`; 429 is recognised but its branch is the no-op `...`,
falling through; 500/502/503 → `ServerError`; everything else →
generic `HTTPException`.  This only selects the branch; the chosen
exception is constructed at the raise site (in `requestLocked`), where
the constructor can itself fail. -/
def interpretStatus (status : Nat) (data : Body) : StatusAction :=
  if 200 ≤ status ∧ status < 300 then .success
  else if status = 401 then .reauthRetry
  else if status = 403 then .fail (.forbidden data status)
  else if status = 404 then .fail (.notFound data status)
  -- status 429: rate limited, body of the branch is `...` (fall through)
  else if status ∈ ([500, 502, 503] : List Nat) then .fail (.serverError data status)
  else .fail (.httpException data status)

/-- Lines 117-156 of `HTTPClient.request`: build the Bearer header
(reading `_access_token`), enter `async with self.lock` (suspending
forever if the lock is already held — `asyncio.Lock` is not reentrant),
perform the network call and interpret the status.  The 401 branch
re-authorizes and then re-enters `request` — passed in as `recurse` —
while the lock is still held; the lock is released on every exit of the
block (return or exception), so it is released around the result of the
recursive call except when that call itself never finishes. -/
def requestLocked (recurse : Env → ClientState → ReqResult) (route : Route)
    (st : ClientState) (env : Env) (evs : List Event) : ReqResult :=
  match st.accessToken with
  | none =>
    { outcome := .pyError (.attributeError "_access_token"), state := st, env := env, events := evs }
  | some tok =>
    if st.lockHeld then
      { outcome := .deadlock, state := st, env := env, events := evs }
    else
      let st := { st with lockHeld := true }
      match env.dataResponses with
      | [] =>
        { outcome := .noResponse, state := { st with lockHeld := false }, env := env, events := evs }
      | r :: rest =>
        let env := { env with dataResponses := rest }
        let evs := evs ++ [Event.dataCall route.method route.url ("Bearer " ++ pyStr tok)]
        match interpretStatus r.status r.body with
        | .success =>
          { outcome := .ok r.body, state := { st with lockHeld := false }, env := env, events := evs }
        | .fail e =>
          -- `raise E(data, response.status)`: the constructor formats its
          -- message first; its own TypeError/KeyError propagates instead
          match httpExceptionFmt r.body r.status none with
          | .error pe =>
            { outcome := .pyError pe, state := { st with lockHeld := false }, env := env, events := evs }
          | .ok _ =>
            { outcome := .raised e, state := { st with lockHeld := false }, env := env, events := evs }
        | .reauthRetry =>
          match env.authResponses with
          | [] =>
            { outcome := .noResponse, state := { st with lockHeld := false }, env := env, events := evs }
          | a :: arest =>
            let ares := authorize st env.now a
            let env := { env with authResponses := arest }
            let evs := evs ++ ares.events
            match ares.outcome with
            | .raised e =>
              { outcome := .raised e, state := { ares.state with lockHeld := false }, env := env, events := evs }
            | .pyError e =>
              { outcome := .pyError e, state := { ares.state with lockHeld := false }, env := env, events := evs }
            | .ok =>
              let rres := recurse env ares.state
              match rres.outcome with
              | .deadlock =>
                { outcome := .deadlock, state := rres.state, env := rres.env, events := evs ++ rres.events }
              | out =>
                { outcome := out, state := { rres.state with lockHeld := false }, env := rres.env, events := evs ++ rres.events }

/-- `HTTPClient.request` (http.py lines 97-156).  Fuel bounds the
self-recursion of the 401 branch (line 142); `outOfFuel` is a model
artifact never reached from fuel ≥ 2, because the recursive call always
stops at the lock.  Line 100: without a `_session` attribute, raise
`NotAuthorized`.  Lines 112-115: the staleness test reads `_expires_at`
(an `AttributeError` if authorization never succeeded) and, when it
fires, awaits `authorize()` once, outside the lock.  Lines 117-156 are
`requestLocked`. -/
def request : Nat → Env → ClientState → Route → ReqResult
  | 0, env, st, _ => { outcome := .outOfFuel, state := st, env := env, events := [] }
  | fuel + 1, env, st, route =>
    if st.sessionExists = false then
      { outcome := .raised (.notAuthorized "You need to authorize first before making any requests")
        state := st, env := env, events := [] }
    else
      match st.expiresAt with
      | none =>
        { outcome := .pyError (.attributeError "_expires_at"), state := st, env := env, events := [] }
      | some exp =>
        if staleCheck env.now exp then
          match env.authResponses with
          | [] => { outcome := .noResponse, state := st, env := env, events := [] }
          | a :: arest =>
            let ares := authorize st env.now a
            let env := { env with authResponses := arest }
            match ares.outcome with
            | .ok => requestLocked (fun env st => request fuel env st route) route ares.state env ares.events
            | .raised e =>
              { outcome := .raised e, state := ares.state, env := env, events := ares.events }
            | .pyError e =>
              { outcome := .pyError e, state := ares.state, env := env, events := ares.events }
        else
          requestLocked (fun env st => request fuel env st route) route st env []

/-!
Interleaving model of concurrent `request()` tasks for the mutual-exclusion
guarantee.  Each task runs the lock-guarded region of `request()`
(http.py lines 119-156): it acquires `self.lock` on entry (`acquire`, which
can fire only when no task holds the lock), sends the network call
(`send`), receives and parses the response (`recv`), and leaves the
`async with` block (`exitBlock`), which releases the lock on every exit
path — return and raise alike.  `retry` models the 401 branch: the task
goes back to re-enter `request()` while still holding the lock.
Tasks interleave arbitrarily; suspension points let any other task run. -/

/-- Program counter of one task inside `request()`. -/
inductive Pc where
  | start
  | locked
  | onWire
  | interpreting
  | finished
  deriving DecidableEq

/-- Whether a task at this point is inside the lock-guarded region. -/
def Pc.inCrit : Pc → Bool
  | .locked => true
  | .onWire => true
  | .interpreting => true
  | _ => false

/-- Global state of `n` interleaved `request()` tasks sharing one lock. -/
structure SysState (n : Nat) where
  pc : Fin n → Pc
  lockOwner : Option (Fin n)

/-- All tasks about to enter the guarded region; lock free. -/
def SysInit (n : Nat) : SysState n :=
  { pc := fun _ => .start, lockOwner := none }

/-- One interleaving step of the system. -/
inductive SysStep (n : Nat) : SysState n → SysState n → Prop where
  /-- `async with self.lock:` entry — only when no task holds the lock. -/
  | acquire (s : SysState n) (i : Fin n) (h : s.pc i = .start) (hl : s.lockOwner = none) :
      SysStep n s { pc := Function.update s.pc i .locked, lockOwner := some i }
  /-- `self._session.request(...)` goes out on the wire. -/
  | send (s : SysState n) (i : Fin n) (h : s.pc i = .locked) :
      SysStep n s { s with pc := Function.update s.pc i .onWire }
  /-- the response arrives and is parsed. -/
  | recv (s : SysState n) (i : Fin n) (h : s.pc i = .onWire) :
      SysStep n s { s with pc := Function.update s.pc i .interpreting }
  /-- leaving the `async with` block (by return or by raise) releases the lock. -/
  | exitBlock (s : SysState n) (i : Fin n) (h : s.pc i = .interpreting) :
      SysStep n s { pc := Function.update s.pc i .finished, lockOwner := none }
  /-- the 401 branch re-enters `request()` while still holding the lock. -/
  | retry (s : SysState n) (i : Fin n) (h : s.pc i = .interpreting) :
      SysStep n s { s with pc := Function.update s.pc i .start }

/-- States reachable from the initial state by interleaving steps. -/
def SysReachable (n : Nat) : SysState n → Prop :=
  Relation.ReflTransGen (SysStep n) (SysInit n)

/-- The lock invariant: every task inside the guarded region owns the lock. -/
def LockInv {n : Nat} (s : SysState n) : Prop :=
  ∀ i : Fin n, (s.pc i).inCrit = true → s.lockOwner = some i

theorem lockInv_init (n : Nat) : LockInv (SysInit n) := by
  intro i h
  simp [SysInit, Pc.inCrit] at h

theorem lockInv_step {n : Nat} {s s2 : SysState n}
    (hinv : LockInv s) (hstep : SysStep n s s2) : LockInv s2 := by
  cases hstep with
  | acquire i h hl =>
    intro j hj
    by_cases hji : j = i
    · subst hji; rfl
    · have hcrit : (s.pc j).inCrit = true := by
        simpa [Function.update, hji] using hj
      have hown := hinv j hcrit
      rw [hl] at hown
      exact absurd hown (by simp)
  | send i h =>
    intro j hj
    by_cases hji : j = i
    · subst hji
      exact hinv j (by simp [h, Pc.inCrit])
    · exact hinv j (by simpa [Function.update, hji] using hj)
  | recv i h =>
    intro j hj
    by_cases hji : j = i
    · subst hji
      exact hinv j (by simp [h, Pc.inCrit])
    · exact hinv j (by simpa [Function.update, hji] using hj)
  | exitBlock i h =>
    intro j hj
    by_cases hji : j = i
    · subst hji
      simp [Function.update, Pc.inCrit] at hj
    · have hcrit : (s.pc j).inCrit = true := by
        simpa [Function.update, hji] using hj
      have h1 := hinv j hcrit
      have h2 := hinv i (by simp [h, Pc.inCrit])
      rw [h1] at h2
      exact absurd (Option.some.inj h2) fun hh => hji hh
  | retry i h =>
    intro j hj
    by_cases hji : j = i
    · subst hji
      simp [Function.update, Pc.inCrit] at hj
    · exact hinv j (by simpa [Function.update, hji] using hj)

theorem lockInv_reachable {n : Nat} {s : SysState n} (h : SysReachable n s) : LockInv s := by
  induction h with
  | refl => exact lockInv_init n
  | tail _ hstep ih => exact lockInv_step ih hstep

/-- Whether an error value is the `NotAuthorized` exception. -/
def SpotifyError.isNotAuthorized : SpotifyError → Bool
  | .notAuthorized _ => true
  | _ => false

/-- Whether an `authorize()` call raised `NotAuthorized`. -/
def AuthOutcome.notAuthRaised : AuthOutcome → Bool
  | .raised e => e.isNotAuthorized
  | _ => false

/-- Whether a `request()` call raised `NotAuthorized`. -/
def ReqOutcome.notAuthRaised : ReqOutcome → Bool
  | .raised e => e.isNotAuthorized
  | _ => false

theorem authorize_state_sessionExists (st : ClientState) (now : Int) (r : AuthResponse) :
    (authorize st now r).state.sessionExists = true := by
  unfold authorize
  cases hst : st.sessionExists <;>
    simp only [hst, Bool.false_eq_true, reduceIte] <;>
    (repeat' split) <;>
    first | rfl | exact hst | simp_all

theorem authorize_state_sessionClosed (st : ClientState) (now : Int) (r : AuthResponse) :
    (authorize st now r).state.sessionClosed = (st.sessionExists && st.sessionClosed) := by
  unfold authorize
  cases hst : st.sessionExists <;>
    simp only [hst, Bool.false_eq_true, reduceIte] <;>
    (repeat' split) <;>
    first | rfl | simp [hst] | simp_all

theorem authorize_state_lockHeld (st : ClientState) (now : Int) (r : AuthResponse) :
    (authorize st now r).state.lockHeld = st.lockHeld := by
  unfold authorize
  cases hst : st.sessionExists <;>
    simp only [hst, Bool.false_eq_true, reduceIte] <;>
    (repeat' split) <;>
    first | rfl | simp [hst] | simp_all

theorem authorize_events (st : ClientState) (now : Int) (r : AuthResponse) :
    (authorize st now r).events =
      (if st.sessionExists then [] else [Event.createSession]) ++ [Event.authPost] := by
  unfold authorize
  cases hst : st.sessionExists <;>
    simp only [hst, Bool.false_eq_true, reduceIte] <;>
    (repeat' split) <;>
    first | rfl | simp [hst] | simp_all

theorem authorize_notAuthRaised (st : ClientState) (now : Int) (r : AuthResponse) :
    (authorize st now r).outcome.notAuthRaised = false := by
  cases h : (authorize st now r).outcome with
  | ok => rfl
  | pyError e => rfl
  | raised e =>
    cases e <;> try rfl
    exfalso
    unfold authorize at h
    (repeat' split at h) <;> first | exact AuthOutcome.noConfusion h | simp_all

theorem authorize_non200_token (st : ClientState) (now : Int) (r : AuthResponse)
    (h : r.status ≠ 200) :
    (authorize st now r).state.accessToken = st.accessToken ∧
    (authorize st now r).state.expiresAt = st.expiresAt := by
  unfold authorize
  cases hst : st.sessionExists <;>
    simp only [hst, Bool.false_eq_true, reduceIte] <;>
    (repeat' split) <;>
    first | exact ⟨rfl, rfl⟩ | exact absurd (by assumption) h | simp_all

theorem interpretStatus_fail_notAuth (s : Nat) (b : Body) (e : SpotifyError)
    (h : interpretStatus s b = .fail e) : e.isNotAuthorized = false := by
  unfold interpretStatus at h
  split_ifs at h <;> first | (subst h; rfl) | (injection h with h; subst h; rfl) | simp_all

theorem requestLocked_notAuthRaised (recurse : Env → ClientState → ReqResult) (route : Route)
    (st : ClientState) (env : Env) (evs : List Event)
    (hrec : ∀ env2 st2, st2.sessionExists = true →
      (recurse env2 st2).outcome.notAuthRaised = false) :
    (requestLocked recurse route st env evs).outcome.notAuthRaised = false := by
  unfold requestLocked
  dsimp only
  (repeat' split) <;> try rfl
  all_goals rename_i heq
  all_goals
    first
    | exact interpretStatus_fail_notAuth _ _ _ heq
    | exact interpretStatus_fail_notAuth _ _ _ (by assumption)
    | exact ((congrArg AuthOutcome.notAuthRaised heq).symm.trans (authorize_notAuthRaised _ _ _))
    | exact hrec _ _ (authorize_state_sessionExists _ _ _)

theorem request_no_session (fuel : Nat) (env : Env) (st : ClientState) (route : Route)
    (hst : st.sessionExists = false) :
    request (fuel + 1) env st route =
      { outcome := .raised (.notAuthorized "You need to authorize first before making any requests")
        state := st, env := env, events := [] } := by
  unfold request
  simp [hst]

theorem request_notAuthRaised (fuel : Nat) :
    ∀ (env : Env) (st : ClientState) (route : Route), st.sessionExists = true →
      (request fuel env st route).outcome.notAuthRaised = false := by
  induction fuel with
  | zero => intro env st route hst; rfl
  | succ n ih =>
    intro env st route hst
    unfold request
    dsimp only
    simp only [hst, Bool.true_eq_false, reduceIte]
    (repeat' split) <;>
      first
      | rfl
      | (rename_i heq
         exact ((congrArg AuthOutcome.notAuthRaised heq).symm.trans (authorize_notAuthRaised _ _ _)))
      | exact requestLocked_notAuthRaised _ _ _ _ _ (fun env2 st2 h2 => ih env2 st2 route h2)
      | (simp_all; done)

theorem requestLocked_sessionExists (recurse : Env → ClientState → ReqResult) (route : Route)
    (st : ClientState) (env : Env) (evs : List Event)
    (hrec : ∀ env2 st2, st2.sessionExists = true →
      (recurse env2 st2).state.sessionExists = true)
    (hst : st.sessionExists = true) :
    (requestLocked recurse route st env evs).state.sessionExists = true := by
  unfold requestLocked
  dsimp only
  (repeat' split) <;>
    first
    | exact hst
    | exact authorize_state_sessionExists _ _ _
    | exact hrec _ _ (authorize_state_sessionExists _ _ _)

theorem request_sessionExists (fuel : Nat) :
    ∀ (env : Env) (st : ClientState) (route : Route), st.sessionExists = true →
      (request fuel env st route).state.sessionExists = true := by
  induction fuel with
  | zero => intro env st route hst; exact hst
  | succ n ih =>
    intro env st route hst
    unfold request
    dsimp only
    simp only [hst, Bool.true_eq_false, reduceIte]
    (repeat' split) <;>
      first
      | exact hst
      | exact authorize_state_sessionExists _ _ _
      | exact requestLocked_sessionExists _ _ _ _ _ (fun env2 st2 h2 => ih env2 st2 route h2)
          (authorize_state_sessionExists _ _ _)
      | exact requestLocked_sessionExists _ _ _ _ _ (fun env2 st2 h2 => ih env2 st2 route h2) hst
      | (simp_all; done)

theorem requestLocked_sessionClosed (recurse : Env → ClientState → ReqResult) (route : Route)
    (st : ClientState) (env : Env) (evs : List Event)
    (hrec : ∀ env2 st2, st2.sessionExists = true →
      (recurse env2 st2).state.sessionClosed = st2.sessionClosed)
    (hst : st.sessionExists = true) :
    (requestLocked recurse route st env evs).state.sessionClosed = st.sessionClosed := by
  unfold requestLocked
  dsimp only
  (repeat' split) <;>
    first
    | rfl
    | (rw [authorize_state_sessionClosed]; simp [hst])
    | (rw [hrec _ _ (authorize_state_sessionExists _ _ _), authorize_state_sessionClosed]
       simp [hst])

theorem request_sessionClosed (fuel : Nat) :
    ∀ (env : Env) (st : ClientState) (route : Route), st.sessionExists = true →
      (request fuel env st route).state.sessionClosed = st.sessionClosed := by
  induction fuel with
  | zero => intro env st route hst; rfl
  | succ n ih =>
    intro env st route hst
    unfold request
    dsimp only
    simp only [hst, Bool.true_eq_false, reduceIte]
    (repeat' split) <;>
      first
      | rfl
      | (rw [authorize_state_sessionClosed]; simp [hst])
      | exact requestLocked_sessionClosed _ _ _ _ _ (fun env2 st2 h2 => ih env2 st2 route h2) hst
      | (rw [requestLocked_sessionClosed _ _ _ _ _ (fun env2 st2 h2 => ih env2 st2 route h2)
            (authorize_state_sessionExists _ _ _), authorize_state_sessionClosed]
         simp [hst])
      | (simp_all; done)

/-- Concrete run used by the mutual-exclusion witness: one task acquires
the lock and goes out on the wire. -/
def sysW1 : SysState 1 :=
  { pc := Function.update (SysInit 1).pc 0 .locked, lockOwner := some 0 }

/-- Second state of the witness run. -/
def sysW2 : SysState 1 :=
  { sysW1 with pc := Function.update sysW1.pc 0 .onWire }

/-- C1: evaluation of the code at the failing input.  An authorized client
with a fresh token receives a single 401 on a data request.  The code
re-authorizes once (exactly one `authPost`), as the claim says, but the
retried request is issued by a recursive `request()` call made while the
outer call still holds the non-reentrant asyncio lock, so the retry
blocks forever acquiring the lock: the scripted 200 response for the
retry is never consumed, no second `dataCall` event occurs, and
`request()` never returns (outcome `deadlock`, lock left held).  The
claim's "exactly one retried request with the new token" and its
termination guarantee both fail on the code. -/
theorem request_single_401_deadlocks :
    request 10
      { now := 0
        authResponses := [⟨200, [("access_token", .jstr "T2"), ("expires_in", .jnum 3600)]⟩]
        dataResponses := [⟨401, [("error", .jstr "The access token expired")]⟩,
                          ⟨200, [("name", .jstr "Track")]⟩] }
      { client_id := "id", client_secret := "secret", sessionExists := true,
        sessionClosed := false, accessToken := some (.jstr "T1"),
        expiresAt := some 100000, lockHeld := false }
      { method := "GET", path := "tracks/X", params := none } =
    { outcome := .deadlock
      state := { client_id := "id", client_secret := "secret", sessionExists := true,
                 sessionClosed := false, accessToken := some (.jstr "T2"),
                 expiresAt := some 3600, lockHeld := true }
      env := { now := 0, authResponses := [],
               dataResponses := [⟨200, [("name", .jstr "Track")]⟩] }
      events := [.dataCall "GET" "https://api.spotify.com/v1/tracks/X" "Bearer T1",
                 .authPost] } := by
  rfl

/-- C2: evaluation of the code at the failing inputs.  The code computes
`(utcnow() - self._expires_at).seconds <= 10`, i.e.
`(now - expiresAt) % 86400 ≤ 10` — the subtraction is reversed relative
to the claim, and Python timedelta normalisation maps a negative
difference to a seconds component near 86400.  First conjunct: a token
5 seconds from expiry (claim: stale, exactly one `authorize()` before
dispatching) is dispatched directly with the old token and no
`authorize()` call (no `authPost` event, auth script untouched).
Second conjunct: a token 86395 seconds from expiry (claim: fresh, no
`authorize()`) triggers a re-authorization before dispatching. -/
theorem staleness_check_divergence :
    (request 10 { now := 0, authResponses := [], dataResponses := [⟨200, [("name", .jstr "Track")]⟩] }
      { client_id := "id", client_secret := "secret", sessionExists := true,
        sessionClosed := false, accessToken := some (.jstr "T1"),
        expiresAt := some 5, lockHeld := false }
      { method := "GET", path := "tracks/X", params := none } =
    { outcome := .ok [("name", .jstr "Track")]
      state := { client_id := "id", client_secret := "secret", sessionExists := true,
                 sessionClosed := false, accessToken := some (.jstr "T1"),
                 expiresAt := some 5, lockHeld := false }
      env := { now := 0, authResponses := [], dataResponses := [] }
      events := [.dataCall "GET" "https://api.spotify.com/v1/tracks/X" "Bearer T1"] })
    ∧
    (request 10
      { now := 0
        authResponses := [⟨200, [("access_token", .jstr "T2"), ("expires_in", .jnum 3600)]⟩]
        dataResponses := [⟨200, [("name", .jstr "Track")]⟩] }
      { client_id := "id", client_secret := "secret", sessionExists := true,
        sessionClosed := false, accessToken := some (.jstr "T1"),
        expiresAt := some 86395, lockHeld := false }
      { method := "GET", path := "tracks/X", params := none } =
    { outcome := .ok [("name", .jstr "Track")]
      state := { client_id := "id", client_secret := "secret", sessionExists := true,
                 sessionClosed := false, accessToken := some (.jstr "T2"),
                 expiresAt := some 3600, lockHeld := false }
      env := { now := 0, authResponses := [], dataResponses := [] }
      events := [.authPost,
                 .dataCall "GET" "https://api.spotify.com/v1/tracks/X" "Bearer T2"] }) := by
  exact ⟨rfl, rfl⟩

/-- C3 counterexample: after one failed `authorize()` (auth endpoint
responded 401, which is logged and swallowed), a session exists but no
token does; `request()` then fails with `AttributeError` on
`_expires_at` — with an empty event trace, so before any network call —
and not with `NotAuthorized`, refuting the claim that after failed
`authorize()` calls `request()` still fails with `NotAuthorized`. -/
theorem request_after_failed_authorize_counterexample :
    (request 10 { now := 0, authResponses := [], dataResponses := [⟨200, [("name", .jstr "Track")]⟩] }
      (authorize (HTTPClient.init "id" "secret") 0 ⟨401, [("error", .jstr "server says no")]⟩).state
      { method := "GET", path := "tracks/X", params := none } =
    { outcome := .pyError (.attributeError "_expires_at")
      state := { client_id := "id", client_secret := "secret", sessionExists := true,
                 sessionClosed := false, accessToken := none,
                 expiresAt := none, lockHeld := false }
      env := { now := 0, authResponses := [], dataResponses := [⟨200, [("name", .jstr "Track")]⟩] }
      events := [] })
    ∧ ReqOutcome.pyError (.attributeError "_expires_at") ≠
        .raised (.notAuthorized "You need to authorize first before making any requests") := by
  exact ⟨rfl, fun h => nomatch h⟩

/-- C3 (amended): `request()` fails with `NotAuthorized`, without any
network call, iff no session exists — i.e. iff `authorize()` has never
been called at all, not "never successfully run": (1) with no session,
`request()` returns the `NotAuthorized` failure with an empty event
trace; (2) whenever a session exists, `request()` never raises
`NotAuthorized`; (3) with a session but no stored expiry — the state
after only failed authorizations — `request()` crashes with
`AttributeError` on `_expires_at`, still before any network call;
(4) every failed initial `authorize()` (any non-200 auth response)
leaves exactly such a state: session present, no expiry stored. -/
theorem request_notAuthorized_iff_no_session :
    (∀ (cid cs : String) (fuel : Nat) (env : Env) (route : Route),
      request (fuel + 1) env (HTTPClient.init cid cs) route =
        { outcome := .raised (.notAuthorized "You need to authorize first before making any requests")
          state := HTTPClient.init cid cs, env := env, events := [] }) ∧
    (∀ (fuel : Nat) (env : Env) (st : ClientState) (route : Route),
      st.sessionExists = true → (request fuel env st route).outcome.notAuthRaised = false) ∧
    (∀ (fuel : Nat) (env : Env) (st : ClientState) (route : Route),
      st.sessionExists = true → st.expiresAt = none →
      request (fuel + 1) env st route =
        { outcome := .pyError (.attributeError "_expires_at")
          state := st, env := env, events := [] }) ∧
    (∀ (cid cs : String) (now : Int) (r : AuthResponse), r.status ≠ 200 →
      (authorize (HTTPClient.init cid cs) now r).state.sessionExists = true ∧
      (authorize (HTTPClient.init cid cs) now r).state.expiresAt = none) := by
  refine ⟨?_, ?_, ?_, ?_⟩
  · intro cid cs fuel env route
    exact request_no_session fuel env (HTTPClient.init cid cs) route rfl
  · intro fuel env st route hst
    exact request_notAuthRaised fuel env st route hst
  · intro fuel env st route hst hexp
    unfold request
    simp [hst, hexp]
  · intro cid cs now r hr
    refine ⟨authorize_state_sessionExists _ _ _, ?_⟩
    exact (authorize_non200_token _ _ _ hr).2

/-- Witness for C3 at a concrete input: a client whose session exists but
whose token was never stored never yields a `NotAuthorized` failure. -/
theorem request_notAuthorized_iff_no_session_witness :
    (request 3 { now := 0, authResponses := [], dataResponses := [] }
      { client_id := "id", client_secret := "secret", sessionExists := true,
        sessionClosed := false, accessToken := none, expiresAt := none,
        lockHeld := false }
      { method := "GET", path := "tracks/X", params := none }).outcome.notAuthRaised = false :=
  request_notAuthorized_iff_no_session.2.1 3 _ _ _ rfl

/-- C4 counterexample: an `authorize()` call that receives a 400 response
whose body is `{"error": "invalid_client"}` (a string error field, no
`error_description`) does not raise `InvalidClientCredentials`: the
exception constructor evaluates `data["error"]["message"]` while
formatting its message (errors.py lines 48-52) and the resulting
`TypeError` propagates instead. -/
theorem authorize_400_construction_counterexample :
    (authorize (HTTPClient.init "id" "secret") 0
        ⟨400, [("error", .jstr "invalid_client")]⟩).outcome = .pyError .typeError ∧
    AuthOutcome.pyError .typeError ≠
      .raised (.invalidClientCredentials [("error", .jstr "invalid_client")] 400) :=
  ⟨rfl, fun h => nomatch h⟩

/-- C4 (amended): for every prior token state (and hence every credential
pair held in the state), a 200 auth response stores the body's
`access_token` and sets `expires_at = now + expires_in`, fully replacing
the previous token state, and returns normally.  A 400 auth response
raises `InvalidClientCredentials` when constructing that exception
succeeds on the body (in particular whenever `error_description` is
present); when the constructor's own message formatting fails — error
field a bare string or a mapping without a message key while
`error_description` is absent, or no error key at all — the resulting
`TypeError`/`KeyError` propagates instead.  In either case the prior
token state (`access_token` and `expires_at`) is left unchanged. -/
theorem authorize_200_replaces_400_preserves
    (st : ClientState) (now : Int) (body body400 : Body) (tok : Json) (e : Int)
    (htok : body.lookup "access_token" = some tok)
    (hexp : body.lookup "expires_in" = some (.jnum e)) :
    ((authorize st now ⟨200, body⟩).state.accessToken = some tok ∧
     (authorize st now ⟨200, body⟩).state.expiresAt = some (now + e) ∧
     (authorize st now ⟨200, body⟩).outcome = .ok) ∧
    ((authorize st now ⟨400, body400⟩).outcome =
        (match httpExceptionFmt body400 400 none with
          | .error pe => .pyError pe
          | .ok _ => .raised (.invalidClientCredentials body400 400)) ∧
     (authorize st now ⟨400, body400⟩).state.accessToken = st.accessToken ∧
     (authorize st now ⟨400, body400⟩).state.expiresAt = st.expiresAt) := by
  constructor
  · unfold authorize
    simp [htok, hexp]
  · refine ⟨?_, (authorize_non200_token st now ⟨400, body400⟩ (by simp)).1,
      (authorize_non200_token st now ⟨400, body400⟩ (by simp)).2⟩
    unfold authorize
    norm_num
    cases hfmt : httpExceptionFmt body400 400 none <;> simp [hfmt]

/-- C5: evaluation of the code at the failing input.  `destroy()` on a
fresh client — before any `authorize()` call — reads `self._session`
with no `hasattr` guard and raises `AttributeError`, refuting the claim
that the call is safe before any authorization. -/
theorem destroy_before_authorize_attributeError :
    destroy (HTTPClient.init "id" "secret") =
      { state := HTTPClient.init "id" "secret"
        outcome := .pyError (.attributeError "_session"), events := [] } := rfl

/-- C6: in the interleaving model of concurrently executing `request()`
tasks, every reachable system state has at most one task on the wire:
the network call runs inside the lock-guarded region, which is entered
only when no task holds the lock and is released on every exit path, so
two in-flight network calls never interleave. -/
theorem mutex_at_most_one_on_wire (n : Nat) (s : SysState n) (hs : SysReachable n s)
    (i j : Fin n) (hi : s.pc i = .onWire) (hj : s.pc j = .onWire) : i = j := by
  have inv := lockInv_reachable hs
  have hi2 := inv i (by simp [hi, Pc.inCrit])
  have hj2 := inv j (by simp [hj, Pc.inCrit])
  exact Option.some.inj (hi2.symm.trans hj2)

/-- Witness for C6: a concrete reachable two-step run with one task on
the wire, to which the mutual-exclusion theorem applies. -/
theorem mutex_at_most_one_on_wire_witness :
    SysReachable 1 sysW2 ∧ sysW2.pc 0 = Pc.onWire ∧ (0 : Fin 1) = 0 := by
  have h1 : SysStep 1 (SysInit 1) sysW1 := SysStep.acquire (SysInit 1) 0 rfl rfl
  have h2 : SysStep 1 sysW1 sysW2 := SysStep.send sysW1 0 (by simp [sysW1, SysInit])
  have hreach : SysReachable 1 sysW2 :=
    Relation.ReflTransGen.tail (Relation.ReflTransGen.tail Relation.ReflTransGen.refl h1) h2
  have hpc : sysW2.pc 0 = Pc.onWire := by simp [sysW2, sysW1]
  exact ⟨hreach, hpc, mutex_at_most_one_on_wire 1 sysW2 hreach 0 0 hpc hpc⟩

/-- C7 counterexample: an authorized data request whose 403 response body
is `{"error": "Forbidden."}` (a string error field, no
`error_description`) does not fail with `Forbidden`: constructing the
exception evaluates `data["error"]["message"]` while formatting its
message (errors.py lines 48-52) and the resulting `TypeError` propagates
instead of the typed exception. -/
theorem request_403_construction_counterexample :
    (request 1
      { now := 0
        authResponses := []
        dataResponses := [⟨403, [("error", .jstr "Forbidden.")]⟩] }
      { client_id := "id", client_secret := "secret", sessionExists := true,
        sessionClosed := false, accessToken := some (.jstr "T"), expiresAt := some 100000,
        lockHeld := false }
      { method := "GET", path := "tracks/X", params := none }).outcome = .pyError .typeError ∧
    ReqOutcome.pyError .typeError ≠ .raised (.forbidden [("error", .jstr "Forbidden.")] 403) :=
  ⟨rfl, fun h => nomatch h⟩

/-- C7 (amended): response-status interpretation of an authorized,
fresh-token data request, branch by branch: every status in 200-299
returns the parsed body; 403 selects `Forbidden`; 404 `NotFound`; 500,
502 and 503 `ServerError`; and every other non-2xx status apart from 401
— including 429, whose rate-limit branch is the no-op `...` falling
through, and the boundary codes 304 and 400 — selects the generic
`HTTPException`.  In each failing branch the selected exception is
raised when its constructor succeeds on the body; when the constructor's
message formatting itself fails (string or message-less error field with
no `error_description`, or no error field), its `TypeError`/`KeyError`
propagates instead.  (401 takes the re-authorize-and-retry branch, the
subject of C1, and is therefore excluded from the generic conjunct.) -/
theorem request_status_taxonomy (fuel : Nat) (now exp : Int) (tok : Json) (st : ClientState)
    (auths : List AuthResponse) (rest : List DataResponse) (s : Nat) (body : Body) (route : Route)
    (hsess : st.sessionExists = true) (hexp : st.expiresAt = some exp)
    (htok : st.accessToken = some tok) (hlock : st.lockHeld = false)
    (hfresh : staleCheck now exp = false) :
    (200 ≤ s ∧ s < 300 →
      (request (fuel + 1) ⟨now, auths, ⟨s, body⟩ :: rest⟩ st route).outcome = .ok body) ∧
    (s = 403 →
      (request (fuel + 1) ⟨now, auths, ⟨s, body⟩ :: rest⟩ st route).outcome =
        (match httpExceptionFmt body s none with
          | .error pe => .pyError pe
          | .ok _ => .raised (.forbidden body s))) ∧
    (s = 404 →
      (request (fuel + 1) ⟨now, auths, ⟨s, body⟩ :: rest⟩ st route).outcome =
        (match httpExceptionFmt body s none with
          | .error pe => .pyError pe
          | .ok _ => .raised (.notFound body s))) ∧
    (s = 500 ∨ s = 502 ∨ s = 503 →
      (request (fuel + 1) ⟨now, auths, ⟨s, body⟩ :: rest⟩ st route).outcome =
        (match httpExceptionFmt body s none with
          | .error pe => .pyError pe
          | .ok _ => .raised (.serverError body s))) ∧
    (¬(200 ≤ s ∧ s < 300) → s ≠ 401 → s ≠ 403 → s ≠ 404 → s ≠ 500 → s ≠ 502 → s ≠ 503 →
      (request (fuel + 1) ⟨now, auths, ⟨s, body⟩ :: rest⟩ st route).outcome =
        (match httpExceptionFmt body s none with
          | .error pe => .pyError pe
          | .ok _ => .raised (.httpException body s))) := by
  have hred : request (fuel + 1) ⟨now, auths, ⟨s, body⟩ :: rest⟩ st route =
      requestLocked (fun env2 st2 => request fuel env2 st2 route) route st
        ⟨now, auths, ⟨s, body⟩ :: rest⟩ [] := by
    conv_lhs => unfold request
    simp [hsess, hexp, hfresh]
  refine ⟨?_, ?_, ?_, ?_, ?_⟩
  · intro h2
    have hact : interpretStatus s body = .success := by
      unfold interpretStatus
      rw [if_pos h2]
    rw [hred]
    unfold requestLocked
    simp [htok, hlock, hact]
  · intro h403
    subst h403
    have hact : interpretStatus 403 body = .fail (.forbidden body 403) := by
      unfold interpretStatus
      norm_num
    rw [hred]
    unfold requestLocked
    simp only [htok, hlock, Bool.false_eq_true, reduceIte, hact]
    cases hfmt : httpExceptionFmt body 403 none <;> simp [hfmt]
  · intro h404
    subst h404
    have hact : interpretStatus 404 body = .fail (.notFound body 404) := by
      unfold interpretStatus
      norm_num
    rw [hred]
    unfold requestLocked
    simp only [htok, hlock, Bool.false_eq_true, reduceIte, hact]
    cases hfmt : httpExceptionFmt body 404 none <;> simp [hfmt]
  · intro hserv
    have hact : interpretStatus s body = .fail (.serverError body s) := by
      unfold interpretStatus
      rcases hserv with h | h | h <;> subst h <;> norm_num
    rw [hred]
    unfold requestLocked
    simp only [htok, hlock, Bool.false_eq_true, reduceIte, hact]
    cases hfmt : httpExceptionFmt body s none <;> simp [hfmt]
  · intro h2xx h401 h403 h404 h500 h502 h503
    have hact : interpretStatus s body = .fail (.httpException body s) := by
      unfold interpretStatus
      rw [if_neg h2xx, if_neg h401, if_neg h403, if_neg h404,
        if_neg (by simp [h500, h502, h503])]
    rw [hred]
    unfold requestLocked
    simp only [htok, hlock, Bool.false_eq_true, reduceIte, hact]
    cases hfmt : httpExceptionFmt body s none <;> simp [hfmt]

/-- Witness for C7 at the concrete boundary code 429 with a body on which
the exception constructor succeeds: recognised but falling through to
the generic `HTTPException`. -/
theorem request_status_taxonomy_witness :
    (request 1
      { now := 0
        authResponses := []
        dataResponses :=
          [⟨429, [("error", .jobj [("status", .jnum 429), ("message", .jstr "rate limited")])]⟩] }
      { client_id := "id", client_secret := "secret", sessionExists := true,
        sessionClosed := false, accessToken := some (.jstr "T"), expiresAt := some 100000,
        lockHeld := false }
      { method := "GET", path := "me/player", params := none }).outcome =
    .raised (.httpException
      [("error", .jobj [("status", .jnum 429), ("message", .jstr "rate limited")])] 429) := by
  have h := (request_status_taxonomy 0 0 100000 (.jstr "T")
    { client_id := "id", client_secret := "secret", sessionExists := true,
      sessionClosed := false, accessToken := some (.jstr "T"), expiresAt := some 100000,
      lockHeld := false } [] [] 429
    [("error", .jobj [("status", .jnum 429), ("message", .jstr "rate limited")])]
    { method := "GET", path := "me/player", params := none }
    rfl rfl rfl rfl rfl).2.2.2.2 (by decide) (by decide) (by decide) (by decide) (by decide)
    (by decide) (by decide)
  exact h.trans rfl

/-- C9: an `authorize()` call that receives status 201, 202, 204, 304,
401 or 404 from the auth endpoint logs the response (log calls have no
observable state effect in the model) and returns normally, raising no
exception and leaving the stored `access_token` and `expires_at`
unchanged. -/
theorem authorize_soft_statuses_swallowed (st : ClientState) (now : Int) (s : Nat) (body : Body)
    (hs : s = 201 ∨ s = 202 ∨ s = 204 ∨ s = 304 ∨ s = 401 ∨ s = 404) :
    (authorize st now ⟨s, body⟩).outcome = .ok ∧
    (authorize st now ⟨s, body⟩).state.accessToken = st.accessToken ∧
    (authorize st now ⟨s, body⟩).state.expiresAt = st.expiresAt := by
  have hne : s ≠ 200 := by
    rcases hs with h | h | h | h | h | h <;> subst h <;> decide
  refine ⟨?_, (authorize_non200_token st now ⟨s, body⟩ hne).1,
    (authorize_non200_token st now ⟨s, body⟩ hne).2⟩
  unfold authorize
  rcases hs with h | h | h | h | h | h <;> subst h <;> simp

/-- Witness for C9 at the concrete status 304 on a fresh client. -/
theorem authorize_soft_statuses_swallowed_witness :
    (authorize (HTTPClient.init "id" "secret") 0 ⟨304, [("error", .jstr "x")]⟩).outcome = .ok ∧
    (authorize (HTTPClient.init "id" "secret") 0 ⟨304, [("error", .jstr "x")]⟩).state.accessToken =
      (HTTPClient.init "id" "secret").accessToken ∧
    (authorize (HTTPClient.init "id" "secret") 0 ⟨304, [("error", .jstr "x")]⟩).state.expiresAt =
      (HTTPClient.init "id" "secret").expiresAt :=
  authorize_soft_statuses_swallowed (HTTPClient.init "id" "secret") 0 304 [("error", .jstr "x")]
    (Or.inr (Or.inr (Or.inr (Or.inl rfl))))

/-- C10: after any `authorize()` call a session exists regardless of the
outcome; on the first call the session is created before the auth POST
is sent (`createSession` precedes `authPost` in the trace) and the
session is left open even when the authorization fails; every later
`authorize()` call reuses the session (no `createSession` event, session
fields untouched); `request()` never closes the session; `destroy()`
closes an open session. -/
theorem session_lifecycle :
    (∀ (st : ClientState) (now : Int) (r : AuthResponse),
      (authorize st now r).state.sessionExists = true) ∧
    (∀ (st : ClientState) (now : Int) (r : AuthResponse), st.sessionExists = false →
      (authorize st now r).events = [.createSession, .authPost] ∧
      (authorize st now r).state.sessionClosed = false) ∧
    (∀ (st : ClientState) (now : Int) (r : AuthResponse), st.sessionExists = true →
      (authorize st now r).events = [.authPost] ∧
      (authorize st now r).state.sessionClosed = st.sessionClosed) ∧
    (∀ (fuel : Nat) (env : Env) (st : ClientState) (route : Route), st.sessionExists = true →
      (request fuel env st route).state.sessionExists = true ∧
      (request fuel env st route).state.sessionClosed = st.sessionClosed) ∧
    (∀ st : ClientState, st.sessionExists = true → st.sessionClosed = false →
      (destroy st).state.sessionClosed = true ∧ (destroy st).events = [.closeSession]) := by
  refine ⟨fun st now r => authorize_state_sessionExists st now r, ?_, ?_, ?_, ?_⟩
  · intro st now r hst
    refine ⟨?_, ?_⟩
    · rw [authorize_events, hst]
      rfl
    · rw [authorize_state_sessionClosed, hst]
      rfl
  · intro st now r hst
    refine ⟨?_, ?_⟩
    · rw [authorize_events, hst]
      rfl
    · rw [authorize_state_sessionClosed, hst]
      rfl
  · intro fuel env st route hst
    exact ⟨request_sessionExists fuel env st route hst,
      request_sessionClosed fuel env st route hst⟩
  · intro st hst hcl
    unfold destroy
    simp [hst, hcl]

/-- Witness for C10 at a concrete input: a failing first `authorize()`
(400) still creates the session before the POST and leaves it open. -/
theorem session_lifecycle_witness :
    (authorize (HTTPClient.init "id" "secret") 0 ⟨400, [("error", .jstr "invalid_client")]⟩).events =
      [.createSession, .authPost] ∧
    (authorize (HTTPClient.init "id" "secret") 0
      ⟨400, [("error", .jstr "invalid_client")]⟩).state.sessionClosed = false :=
  session_lifecycle.2.1 (HTTPClient.init "id" "secret") 0
    ⟨400, [("error", .jstr "invalid_client")]⟩ rfl

/-- C8 counterexample: on a body with `error = "invalid_client"` and
`error_description = "Invalid client secret"`, the formatted message is
`"400 invalid_client: True"`: the walrus-operator precedence bug binds
`desc` to the boolean of `is not None`, so the literal `True` is
appended instead of the description — the message does not combine the
error field with the `error_description`. -/
theorem httpException_message_counterexample :
    httpExceptionFmt
      [("error", .jstr "invalid_client"), ("error_description", .jstr "Invalid client secret")]
      400 none = .ok "400 invalid_client: True" ∧
    (Except.ok "400 invalid_client: True" : Except PyError String) ≠
      .ok "400 invalid_client: Invalid client secret" := by
  refine ⟨rfl, ?_⟩
  intro h
  simp at h

/-- C8 (amended): the `HTTPException` family carries the parsed body, the
status code and an optional extra message, but the formatted message is
`"{status} {error}"` followed by `": True"` whenever `error_description`
is present (the description itself never appears), and otherwise by
`": {error[message]}"`, which raises `TypeError` when the error field is
a string and `KeyError` when the message key or the error key is
missing; and `NotAuthorized` carries only its fixed message string — no
body and no status code (final conjunct: the `NotAuthorized` failure is
built from the message alone). -/
theorem httpException_message_behavior (data : Body) (status : Nat) (msg : Option String)
    (err : Json) (herr : data.lookup "error" = some err) :
    (∀ d, data.lookup "error_description" = some d →
      httpExceptionFmt data status msg =
        .ok (match msg with
          | none => s!"{status} " ++ pyStr err ++ ": True"
          | some m => s!"{status} " ++ pyStr err ++ ": True" ++ " (" ++ m ++ ")")) ∧
    (data.lookup "error_description" = none → ∀ fields m, err = .jobj fields →
      fields.lookup "message" = some m →
      httpExceptionFmt data status msg =
        .ok (match msg with
          | none => s!"{status} " ++ pyStr err ++ ": " ++ pyStr m
          | some m2 => s!"{status} " ++ pyStr err ++ ": " ++ pyStr m ++ " (" ++ m2 ++ ")")) ∧
    (data.lookup "error_description" = none → ∀ s2, err = .jstr s2 →
      httpExceptionFmt data status msg = .error .typeError) ∧
    (∀ d2 : Body, d2.lookup "error" = none →
      httpExceptionFmt d2 status msg = .error (.keyError "error")) ∧
    (∀ (cid cs : String) (fuel : Nat) (env : Env) (route : Route),
      (request (fuel + 1) env (HTTPClient.init cid cs) route).outcome =
        .raised (.notAuthorized "You need to authorize first before making any requests")) := by
  refine ⟨?_, ?_, ?_, ?_, ?_⟩
  · intro d hd
    unfold httpExceptionFmt
    rw [herr]
    simp only [hd, Option.isSome_some, reduceIte]
    cases msg <;> rfl
  · intro hd fields m hjf hm
    subst hjf
    unfold httpExceptionFmt
    rw [herr]
    simp only [hd, Option.isSome_none, Bool.false_eq_true, reduceIte, hm]
    cases msg <;> rfl
  · intro hd s2 hjs
    subst hjs
    unfold httpExceptionFmt
    rw [herr]
    simp only [hd, Option.isSome_none, Bool.false_eq_true, reduceIte]
  · intro d2 h2
    unfold httpExceptionFmt
    rw [h2]
  · intro cid cs fuel env route
    rw [request_no_session fuel env (HTTPClient.init cid cs) route rfl]

/-- Witness for C8 at a concrete body with an `error_description`. -/
theorem httpException_message_behavior_witness :
    httpExceptionFmt [("error", .jstr "ic"), ("error_description", .jstr "desc")] 400 none =
      .ok "400 ic: True" := by
  have h := (httpException_message_behavior
    [("error", .jstr "ic"), ("error_description", .jstr "desc")] 400 none (.jstr "ic") rfl).1
    (.jstr "desc") rfl
  exact h.trans rfl

/-- Witness for C4 at concrete credentials, a concrete 200 body, and a
concrete 400 body carrying an `error_description` (so the exception
constructor succeeds and `InvalidClientCredentials` is raised). -/
theorem authorize_200_replaces_400_preserves_witness :
    ((authorize (HTTPClient.init "id" "secret") 0
        ⟨200, [("access_token", .jstr "T1"), ("expires_in", .jnum 3600)]⟩).state.accessToken =
      some (.jstr "T1") ∧
     (authorize (HTTPClient.init "id" "secret") 0
        ⟨200, [("access_token", .jstr "T1"), ("expires_in", .jnum 3600)]⟩).state.expiresAt =
      some 3600 ∧
     (authorize (HTTPClient.init "id" "secret") 0
        ⟨200, [("access_token", .jstr "T1"), ("expires_in", .jnum 3600)]⟩).outcome = .ok) ∧
    ((authorize (HTTPClient.init "id" "secret") 0
        ⟨400, [("error", .jstr "invalid_client"),
               ("error_description", .jstr "Invalid client secret")]⟩).outcome =
      .raised (.invalidClientCredentials
        [("error", .jstr "invalid_client"),
         ("error_description", .jstr "Invalid client secret")] 400) ∧
     (authorize (HTTPClient.init "id" "secret") 0
        ⟨400, [("error", .jstr "invalid_client"),
               ("error_description", .jstr "Invalid client secret")]⟩).state.accessToken =
      (HTTPClient.init "id" "secret").accessToken ∧
     (authorize (HTTPClient.init "id" "secret") 0
        ⟨400, [("error", .jstr "invalid_client"),
               ("error_description", .jstr "Invalid client secret")]⟩).state.expiresAt =
      (HTTPClient.init "id" "secret").expiresAt) := by
  have h := authorize_200_replaces_400_preserves (HTTPClient.init "id" "secret") 0
    [("access_token", .jstr "T1"), ("expires_in", .jnum 3600)]
    [("error", .jstr "invalid_client"), ("error_description", .jstr "Invalid client secret")]
    (.jstr "T1") 3600 rfl rfl
  exact ⟨⟨h.1.1, h.1.2.1, h.1.2.2⟩, h.2.1.trans rfl, h.2.2.1, h.2.2.2⟩

end AioSpotify
